import Mathlib

/-!
Shallow embedding of the job-dispatch reconciliation loop of this repository:
the Supabase edge function in
src/edgefunction/supabase/functions/process-scrape-jobs/index.ts
and the batch-fetch SQL function in
src/edgefunction/supabase/migrations/CreateGetUndoneScrapeJobs.sql.

Exceptions of the TypeScript code are totalized as sum types: a throwing
fetch call is the constructor FetchOutcome.threw, a failing JSON parse is
JsonResult.parseError, and the per-job try/catch of the loop body becomes
the totality of processJob.  Store update calls follow the supabase-js
convention of returning an error value rather than throwing.  Timestamps
in response bodies are real time and are not modelled; creation times are
modelled as natural numbers since only their order matters.
-/

namespace Scrape

/-- A sub-item as embedded in a fetched job (interface JobPart of index.ts):
nullable descriptive fields become Option String. -/
structure JobPart where
  part_id : String
  postcode : Option String
  keyword : Option String
  city : Option String
  country : Option String
  deriving DecidableEq

/-- A fetched job (interface ScrapeJob of index.ts). created_at is the
creation timestamp, modelled as Nat. -/
structure ScrapeJob where
  job_id : String
  profile_id : String
  scraper_engine : String
  created_at : Nat
  job_parts : List JobPart
  deriving DecidableEq

/-- The parsed JSON body of an executor response (flaskResult in index.ts).
The code tests the success flag with JavaScript truthiness, so a false or
absent flag are both modelled as success = false; the error field is the
stringified value interpolated into the failure message. -/
structure FlaskResult where
  success : Bool
  error : String
  deriving DecidableEq

/-- Outcome of parsing the response body as JSON (flaskResponse.json() in
index.ts); a parse failure throws and is caught at the per-job boundary. -/
inductive JsonResult where
  | parsed (r : FlaskResult)
  | parseError (msg : String)
  deriving DecidableEq

/-- A transport-level executor response: the ok flag and status of the HTTP
response, the raw body text read when not ok, and the JSON parse outcome
used when ok. -/
structure FlaskHttpResponse where
  ok : Bool
  status : Nat
  bodyText : String
  jsonBody : JsonResult
  deriving DecidableEq

/-- Outcome of the fetch call to the executor: either the call itself threw
(network error; the message is what jobError.message reads at the catch) or
a response arrived. -/
inductive FetchOutcome where
  | threw (msg : String)
  | responded (r : FlaskHttpResponse)
  deriving DecidableEq

/-- Everything the external world answers for one job of the loop body:
the executor call outcome and the error values of the two store updates
(none means the update succeeded). -/
structure JobWorld where
  flask : FetchOutcome
  updateJobError : Option String
  updatePartsError : Option String
  deriving DecidableEq

/-- The per-job dispatch outcome: the entry pushed to processedJobs carries
the flask response; the entry pushed to failedJobs carries the error text. -/
inductive JobOutcome where
  | succeeded (flask_response : FlaskResult)
  | failed (error : String)
  deriving DecidableEq

/-- The result of one iteration of the loop body: the outcome together with
which external calls the iteration performed. -/
structure JobStep where
  outcome : JobOutcome
  flaskCalled : Bool
  jobUpdateCalled : Bool
  partsUpdateCalled : Bool
  deriving DecidableEq

/-- One iteration of the per-job loop body of index.ts (lines 84-176):
submit to the executor, check transport outcome, parse, check the success
flag, update job status, update part statuses.  Every early exit of the
code (continue after a push to failedJobs, or the per-job catch) is a
branch returning a failed outcome. -/
def processJob (w : JobWorld) : JobStep :=
  match w.flask with
  | .threw msg => ⟨.failed msg, true, false, false⟩
  | .responded r =>
    if !r.ok then
      ⟨.failed ("Flask API error (" ++ toString r.status ++ "): " ++ r.bodyText),
        true, false, false⟩
    else
      match r.jsonBody with
      | .parseError msg => ⟨.failed msg, true, false, false⟩
      | .parsed fr =>
        if !fr.success then
          ⟨.failed ("Flask API failure: " ++ fr.error), true, false, false⟩
        else
          match w.updateJobError with
          | some m => ⟨.failed ("DB update error: " ++ m), true, true, false⟩
          | none =>
            match w.updatePartsError with
            | some m => ⟨.failed ("DB parts update error: " ++ m), true, true, true⟩
            | none => ⟨.succeeded fr, true, true, true⟩

/-- An entry of the processedJobs list of index.ts. -/
structure ProcessedEntry where
  job_id : String
  flask_response : FlaskResult
  deriving DecidableEq

/-- An entry of the failedJobs list of index.ts. -/
structure FailedEntry where
  job_id : String
  error : String
  deriving DecidableEq

/-- The two accumulated outcome lists of a pass together with the job ids
for which each kind of external call was made, in loop order. -/
structure BatchResult where
  processed_jobs : List ProcessedEntry
  failed_jobs : List FailedEntry
  flaskCalls : List String
  jobUpdateCalls : List String
  partsUpdateCalls : List String
  deriving DecidableEq

/-- The for-loop of index.ts over the fetched jobs, in order; w gives the
external responses observed when a given job is processed. -/
def processBatch (jobs : List ScrapeJob) (w : ScrapeJob → JobWorld) : BatchResult :=
  match jobs with
  | [] => ⟨[], [], [], [], []⟩
  | job :: rest =>
    let s := processJob (w job)
    let r := processBatch rest w
    { processed_jobs :=
        (match s.outcome with
         | .succeeded fr => [⟨job.job_id, fr⟩]
         | .failed _ => []) ++ r.processed_jobs
      failed_jobs :=
        (match s.outcome with
         | .succeeded _ => []
         | .failed e => [⟨job.job_id, e⟩]) ++ r.failed_jobs
      flaskCalls := (if s.flaskCalled then [job.job_id] else []) ++ r.flaskCalls
      jobUpdateCalls := (if s.jobUpdateCalled then [job.job_id] else []) ++ r.jobUpdateCalls
      partsUpdateCalls :=
        (if s.partsUpdateCalled then [job.job_id] else []) ++ r.partsUpdateCalls }

/-- The three environment-provided configuration values read at the top of
the handler (SUPABASE_URL, SERVICE_ROLE_KEY, and REDIS_URL holding the
Flask server URL); none means the variable is unset. -/
structure Env where
  supabaseUrl : Option String
  serviceRoleKey : Option String
  flaskServerUrl : Option String
  deriving DecidableEq

/-- JavaScript falsiness of an environment string: unset or empty. -/
def falsyStr : Option String → Bool
  | none => true
  | some s => s == ""

/-- The JSON body of the HTTP response the handler returns: the preflight
acknowledgment, the empty-batch message body, the pass summary, or the
fatal error body of the outer catch. -/
inductive Body where
  | optionsOk
  | noJobs (message : String)
  | summary (success : Bool) (message : String) (processed_jobs : List ProcessedEntry)
      (failed_jobs : List FailedEntry) (total_found : Nat)
  | fatal (success : Bool) (error : String)
  deriving DecidableEq

/-- The top-level success field of a response body, when the body has one:
the pass summary and the fatal body carry one, the preflight and the
empty-batch bodies do not. -/
def bodySuccessField : Body → Option Bool
  | .summary s _ _ _ _ => some s
  | .fatal s _ => some s
  | _ => none

/-- The observable result of one invocation of the handler: HTTP status,
response body, and which external calls were made during the pass. -/
structure PassResult where
  status : Nat
  body : Body
  rpcCalled : Bool
  flaskCalls : List String
  jobUpdateCalls : List String
  partsUpdateCalls : List String
  deriving DecidableEq

/-- The serve handler of index.ts.  rpcResult is the outcome the Job Store
gives to the get_undone_scrape_jobs call if it is made: an error (thrown
and caught by the outer catch), or data that may be null.  The code checks
SERVICE_ROLE_KEY and then REDIS_URL for falsiness and throws; the
supabaseUrl branch is the external supabase-js createClient call, which
(modelled from the spec, the library being an external collaborator)
throws on an absent or empty store connection endpoint before any query
runs. -/
def handler (method : String) (env : Env)
    (rpcResult : Except String (Option (List ScrapeJob)))
    (w : ScrapeJob → JobWorld) : PassResult :=
  if method == "OPTIONS" then
    ⟨200, .optionsOk, false, [], [], []⟩
  else if falsyStr env.serviceRoleKey then
    ⟨500, .fatal false "SERVICE_ROLE_KEY environment variable is required", false, [], [], []⟩
  else if falsyStr env.flaskServerUrl then
    ⟨500, .fatal false "REDIS_URL environment variable is required", false, [], [], []⟩
  else if falsyStr env.supabaseUrl then
    ⟨500, .fatal false "supabaseUrl is required.", false, [], [], []⟩
  else
    match rpcResult with
    | .error e => ⟨500, .fatal false e, true, [], [], []⟩
    | .ok jobsOpt =>
      let jobs := jobsOpt.getD []
      if jobs.isEmpty then
        ⟨200, .noJobs "No undone jobs found", true, [], [], []⟩
      else
        let r := processBatch jobs w
        ⟨200,
          .summary true
            ("Processed " ++ toString r.processed_jobs.length ++
              " jobs successfully, " ++ toString r.failed_jobs.length ++ " failed")
            r.processed_jobs r.failed_jobs jobs.length,
          true, r.flaskCalls, r.jobUpdateCalls, r.partsUpdateCalls⟩

/-- A row of the scrape_jobs relation, with the columns the SQL function
and the job-level update touch. -/
structure JobRow where
  id : String
  profile_id : String
  scraper_engine : String
  created_at : Nat
  status : String
  deriving DecidableEq

/-- A row of the scrape_job_parts relation. -/
structure PartRow where
  id : String
  job_id : String
  postcode : Option String
  keyword : Option String
  city : Option String
  country : Option String
  status : String
  deriving DecidableEq

/-- The json_build_object projection of a part row inside json_agg. -/
def partRowToJobPart (p : PartRow) : JobPart :=
  { part_id := p.id, postcode := p.postcode, keyword := p.keyword,
    city := p.city, country := p.country }

/-- The part rows of a given job surviving the WHERE clause of
CreateGetUndoneScrapeJobs.sql: joined on job_id and filtered to
status = undone. -/
def undonePartsOf (parts : List PartRow) (jid : String) : List PartRow :=
  parts.filter (fun p => p.job_id == jid && p.status == "undone")

/-- All part rows of a given job, regardless of status. -/
def allPartsOf (parts : List PartRow) (jid : String) : List PartRow :=
  parts.filter (fun p => p.job_id == jid)

/-- One output row of the SQL function for a job row: its columns together
with the aggregated undone parts. -/
def rowToJob (parts : List PartRow) (j : JobRow) : ScrapeJob :=
  { job_id := j.id, profile_id := j.profile_id, scraper_engine := j.scraper_engine,
    created_at := j.created_at,
    job_parts := (undonePartsOf parts j.id).map partRowToJobPart }

/-- The ORDER BY sj.created_at ASC comparison. -/
def jobLE (a b : ScrapeJob) : Prop := a.created_at ≤ b.created_at

instance : DecidableRel jobLE := fun a b => Nat.decLe a.created_at b.created_at

instance : IsTotal ScrapeJob jobLE := ⟨fun a b => Nat.le_total a.created_at b.created_at⟩

instance : IsTrans ScrapeJob jobLE := ⟨fun _ _ _ h1 h2 => Nat.le_trans h1 h2⟩

/-- The get_undone_scrape_jobs SQL function: jobs with status undone,
inner-joined to their parts with status undone (so a job with no undone
part is dropped by the join), grouped per job with the surviving parts
aggregated, ordered by created_at ascending.  Job ids are primary keys, so
grouping by the job columns is the same as building one output row per
undone job row. -/
def get_undone_scrape_jobs (jobs : List JobRow) (parts : List PartRow) : List ScrapeJob :=
  List.insertionSort jobLE
    (((jobs.filter (fun j => j.status == "undone")).map (rowToJob parts)).filter
      (fun sj => !sj.job_parts.isEmpty))

/-- Modelled from the spec: a single call returning an ordered list of
jobs, each with embedded sub-items, filtered to status = eligible on both
the job and all its sub-items, ordered by creation time ascending.  This is
the spec-side reading of the fetch-eligible-batch call, for comparison with
get_undone_scrape_jobs. -/
def eligibleBatchSpec (jobs : List JobRow) (parts : List PartRow) : List ScrapeJob :=
  List.insertionSort jobLE
    ((jobs.filter (fun j =>
        j.status == "undone" &&
          (allPartsOf parts j.id).all (fun p => p.status == "undone"))).map
      (fun j =>
        { job_id := j.id, profile_id := j.profile_id,
          scraper_engine := j.scraper_engine, created_at := j.created_at,
          job_parts := (allPartsOf parts j.id).map partRowToJobPart }))

/-- The sub-item update of index.ts (lines 150-153): update scrape_job_parts
set status = ongoing where job_id equals the given id.  It is scoped only by
job identifier, not by current row status. -/
def updatePartsTable (tbl : List PartRow) (jid : String) : List PartRow :=
  tbl.map (fun p => if p.job_id == jid then { p with status := "ongoing" } else p)

/-! Concrete inputs used to instantiate the theorems below. -/

/-- A remote result with the success flag set. -/
def frTrue : FlaskResult := ⟨true, "none"⟩

/-- A remote result with the success flag cleared and an error detail. -/
def frFalse : FlaskResult := ⟨false, "remote refusal"⟩

/-- A 200 response whose body parses to a successful result. -/
def respOK : FlaskHttpResponse := ⟨true, 200, "", .parsed frTrue⟩

/-- A 200 response whose body parses to success = false. -/
def respFalse : FlaskHttpResponse := ⟨true, 200, "", .parsed frFalse⟩

/-- A 503 response with body text overloaded. -/
def resp503 : FlaskHttpResponse := ⟨false, 503, "overloaded", .parseError "no json"⟩

/-- A job whose whole processing succeeds. -/
def worldOK : JobWorld := ⟨.responded respOK, none, none⟩

/-- A job whose executor call throws a network error. -/
def worldThrew : JobWorld := ⟨.threw "network error", none, none⟩

/-- A job accepted remotely whose job-status update fails. -/
def worldDbErr : JobWorld := ⟨.responded respOK, some "boom", none⟩

/-- A job that reaches the executor and gets HTTP 503. -/
def world503 : JobWorld := ⟨.responded resp503, none, none⟩

/-- A job whose executor answers with success = false. -/
def worldFalse : JobWorld := ⟨.responded respFalse, none, none⟩

/-- A sample job. -/
def jobX : ScrapeJob := ⟨"jx", "prof1", "google_maps", 1, []⟩

/-- Another sample job. -/
def jobY : ScrapeJob := ⟨"jy", "prof2", "google_maps", 2, []⟩

/-- A world in which jobX throws at the executor call and every other job
succeeds fully. -/
def wC1 : ScrapeJob → JobWorld := fun j => if j.job_id == "jx" then worldThrew else worldOK

/-- A world in which every executor call throws. -/
def wThrew : ScrapeJob → JobWorld := fun _ => worldThrew

/-- A world in which every executor call gets HTTP 503. -/
def w503 : ScrapeJob → JobWorld := fun _ => world503

/-- A complete configuration. -/
def envOK : Env := ⟨some "https://example.supabase.co", some "service-key", some "http://flask.local"⟩

/-- A configuration whose executor base URL is absent. -/
def envNoFlask : Env := ⟨some "https://example.supabase.co", some "service-key", none⟩

/-- A sample undone job row. -/
def jobRow6 : JobRow := ⟨"j1", "prof", "google_maps", 5, "undone"⟩

/-- An undone part of job j1. -/
def partRow6a : PartRow := ⟨"p1", "j1", none, none, none, none, "undone"⟩

/-- A done part of job j1. -/
def partRow6b : PartRow := ⟨"p2", "j1", none, none, none, none, "done"⟩

/-! Helper lemmas. -/

/-- A throwing executor call makes the iteration fail with the thrown
message before any store call. -/
theorem processJob_threw (w : JobWorld) (msg : String) (h : w.flask = .threw msg) :
    processJob w = ⟨.failed msg, true, false, false⟩ := by
  simp [processJob, h]

/-- A fully successful iteration: transport ok, parsed success, both store
updates succeed. -/
theorem processJob_fullSuccess (w : JobWorld) (r : FlaskHttpResponse) (fr : FlaskResult)
    (h1 : w.flask = .responded r) (h2 : r.ok = true) (h3 : r.jsonBody = .parsed fr)
    (h4 : fr.success = true) (h5 : w.updateJobError = none)
    (h6 : w.updatePartsError = none) :
    processJob w = ⟨.succeeded fr, true, true, true⟩ := by
  simp [processJob, h1, h2, h3, h4, h5, h6]

/-- Every job of a batch contributes exactly one outcome entry. -/
theorem processBatch_length (jobs : List ScrapeJob) (w : ScrapeJob → JobWorld) :
    (processBatch jobs w).processed_jobs.length + (processBatch jobs w).failed_jobs.length
      = jobs.length := by
  induction jobs with
  | nil => rfl
  | cons job rest ih =>
    cases h : (processJob (w job)).outcome with
    | succeeded fr => simp [processBatch, h]; omega
    | failed e => simp [processBatch, h]; omega

/-- Claim C1: any per-job exception is converted into a failed-outcomes
entry at the per-job boundary and the loop continues with the next job; in
a batch of JobX then JobY where the executor call of JobX throws and JobY
succeeds fully, the summary lists JobY as succeeded and JobX as failed. -/
theorem c1_per_job_isolation :
    (∀ (j : ScrapeJob) (rest : List ScrapeJob) (w : ScrapeJob → JobWorld) (m : String),
      (w j).flask = .threw m →
        (processBatch (j :: rest) w).failed_jobs
            = ⟨j.job_id, m⟩ :: (processBatch rest w).failed_jobs ∧
          (processBatch (j :: rest) w).processed_jobs
            = (processBatch rest w).processed_jobs) ∧
    (∀ (jx jy : ScrapeJob) (w : ScrapeJob → JobWorld) (msg : String)
        (r : FlaskHttpResponse) (fr : FlaskResult),
      (w jx).flask = .threw msg → (w jy).flask = .responded r → r.ok = true →
      r.jsonBody = .parsed fr → fr.success = true → (w jy).updateJobError = none →
      (w jy).updatePartsError = none →
        (processBatch [jx, jy] w).processed_jobs = [⟨jy.job_id, fr⟩] ∧
          (processBatch [jx, jy] w).failed_jobs = [⟨jx.job_id, msg⟩]) := by
  constructor
  · intro j rest w m h
    constructor <;> simp [processBatch, processJob_threw (w j) m h]
  · intro jx jy w msg r fr h1 h2 h3 h4 h5 h6 h7
    constructor <;>
      simp [processBatch, processJob_threw (w jx) msg h1,
        processJob_fullSuccess (w jy) r fr h2 h3 h4 h5 h6 h7]

/-- Witness for C1 at a concrete two-job batch. -/
theorem c1_witness :
    (processBatch [jobX, jobY] wC1).processed_jobs = [⟨jobY.job_id, frTrue⟩] ∧
      (processBatch [jobX, jobY] wC1).failed_jobs = [⟨jobX.job_id, "network error"⟩] :=
  c1_per_job_isolation.2 jobX jobY wC1 "network error" respOK frTrue
    rfl rfl rfl rfl rfl rfl rfl

/-- Claim C3: a job whose transport succeeded but whose parsed response has
success false or absent gets no store update call at all, and a failure
carrying the remote error detail is recorded. -/
theorem c3_no_store_update_on_remote_refusal (w : JobWorld) (r : FlaskHttpResponse)
    (fr : FlaskResult) (h1 : w.flask = .responded r) (h2 : r.ok = true)
    (h3 : r.jsonBody = .parsed fr) (h4 : fr.success = false) :
    processJob w = ⟨.failed ("Flask API failure: " ++ fr.error), true, false, false⟩ := by
  simp [processJob, h1, h2, h3, h4]

/-- Witness for C3 at a concrete refusing world. -/
theorem c3_witness :
    processJob worldFalse = ⟨.failed "Flask API failure: remote refusal", true, false, false⟩ :=
  c3_no_store_update_on_remote_refusal worldFalse respFalse frFalse rfl rfl rfl rfl

/-- Claim C4: the sub-item update is invoked only when the job-level update
of the same iteration was invoked and succeeded; a failing job-level update
yields a failure carrying the store error detail with no sub-item update. -/
theorem c4_parts_update_gated (w : JobWorld) :
    ((processJob w).partsUpdateCalled = true →
      (processJob w).jobUpdateCalled = true ∧ w.updateJobError = none) ∧
    (∀ (r : FlaskHttpResponse) (fr : FlaskResult) (m : String),
      w.flask = .responded r → r.ok = true → r.jsonBody = .parsed fr →
      fr.success = true → w.updateJobError = some m →
        processJob w = ⟨.failed ("DB update error: " ++ m), true, true, false⟩) := by
  constructor
  · intro hparts
    rcases hf : w.flask with m | r
    · simp [processJob, hf] at hparts
    · rcases hjs : r.jsonBody with fr | pm
      · by_cases hok : r.ok
        · by_cases hs : fr.success
          · rcases hj : w.updateJobError with _ | m1
            · rcases hp : w.updatePartsError with _ | m2 <;>
                simp [processJob, hf, hjs, hok, hs, hj, hp]
            · simp [processJob, hf, hjs, hok, hs, hj] at hparts
          · simp [processJob, hf, hjs, hok, hs] at hparts
        · simp [processJob, hf, hok] at hparts
      · by_cases hok : r.ok
        · simp [processJob, hf, hjs, hok] at hparts
        · simp [processJob, hf, hok] at hparts
  · intro r fr m h1 h2 h3 h4 h5
    simp [processJob, h1, h2, h3, h4, h5]

/-- Witness for C4 at a concrete world whose job-level update fails. -/
theorem c4_witness :
    processJob worldDbErr = ⟨.failed "DB update error: boom", true, true, false⟩ :=
  (c4_parts_update_gated worldDbErr).2 respOK frTrue "boom" rfl rfl rfl rfl rfl

/-- Claim C9: the sub-item update is scoped only by job identifier, so it
sets status ongoing on every part row of the job, including rows that were
not in the fetched batch because their status was already done. -/
theorem c9_parts_update_ignores_status (tbl : List PartRow) (jid : String) (r : PartRow)
    (hmem : r ∈ tbl) (hjid : r.job_id = jid) (hstatus : r.status = "done") :
    (∀ p ∈ tbl, p.job_id = jid →
      { p with status := "ongoing" } ∈ updatePartsTable tbl jid) ∧
    ({ r with status := "ongoing" } ∈ updatePartsTable tbl jid ∧
      r ∉ undonePartsOf tbl jid) := by
  have hall : ∀ p ∈ tbl, p.job_id = jid →
      { p with status := "ongoing" } ∈ updatePartsTable tbl jid := by
    intro p hp hpj
    have hmm : (fun q => if q.job_id == jid then { q with status := "ongoing" } else q) p
        ∈ updatePartsTable tbl jid := List.mem_map_of_mem _ hp
    simpa [hpj] using hmm
  refine ⟨hall, hall r hmem hjid, ?_⟩
  intro hcontra
  rw [undonePartsOf, List.mem_filter] at hcontra
  simp [hstatus] at hcontra

/-- Witness for C9 at a concrete two-row parts table. -/
theorem c9_witness :
    { partRow6b with status := "ongoing" } ∈ updatePartsTable [partRow6a, partRow6b] "j1" ∧
      partRow6b ∉ undonePartsOf [partRow6a, partRow6b] "j1" :=
  (c9_parts_update_ignores_status [partRow6a, partRow6b] "j1" partRow6b
    (by decide) rfl rfl).2

/-- Claim C2: whenever the handler returns a Pass Summary, the number of
succeeded outcomes plus the number of failed outcomes equals the total
number of eligible jobs found. -/
theorem c2_outcome_counts (method : String) (env : Env)
    (rpcResult : Except String (Option (List ScrapeJob))) (w : ScrapeJob → JobWorld)
    (s : Bool) (m : String) (p : List ProcessedEntry) (f : List FailedEntry) (t : Nat)
    (h : (handler method env rpcResult w).body = .summary s m p f t) :
    p.length + f.length = t := by
  by_cases hopt : method = "OPTIONS"
  · simp [handler, hopt] at h
  · by_cases hk : falsyStr env.serviceRoleKey
    · simp [handler, hopt, hk] at h
    · by_cases hfl : falsyStr env.flaskServerUrl
      · simp [handler, hopt, hk, hfl] at h
      · by_cases hsb : falsyStr env.supabaseUrl
        · simp [handler, hopt, hk, hfl, hsb] at h
        · cases rpcResult with
          | error e => simp [handler, hopt, hk, hfl, hsb] at h
          | ok jobsOpt =>
            by_cases hempty : (jobsOpt.getD []).isEmpty
            · simp [handler, hopt, hk, hfl, hsb, hempty] at h
            · simp [handler, hopt, hk, hfl, hsb, hempty] at h
              obtain ⟨-, -, hp, hf2, ht⟩ := h
              rw [← hp, ← hf2, ← ht]
              exact processBatch_length _ w

/-- Witness for C2 at a concrete one-job pass whose only job fails. -/
theorem c2_witness :
    ([] : List ProcessedEntry).length + [FailedEntry.mk "jx" "network error"].length = 1 :=
  c2_outcome_counts "POST" envOK (.ok (some [jobX])) wThrew true
    "Processed 0 jobs successfully, 1 failed" [] [⟨"jx", "network error"⟩] 1 (by decide)

/-- Claim C5: an absent store connection endpoint, store credential, or
executor base URL aborts the pass with a 500 configuration-error response
before the batch fetch is attempted. -/
theorem c5_config_fatal (method : String) (env : Env)
    (rpcResult : Except String (Option (List ScrapeJob))) (w : ScrapeJob → JobWorld)
    (hm : method ≠ "OPTIONS")
    (h : falsyStr env.supabaseUrl = true ∨ falsyStr env.serviceRoleKey = true ∨
      falsyStr env.flaskServerUrl = true) :
    (handler method env rpcResult w).status = 500 ∧
      (∃ e, (handler method env rpcResult w).body = .fatal false e) ∧
      (handler method env rpcResult w).rpcCalled = false := by
  cases h1 : falsyStr env.serviceRoleKey <;> cases h2 : falsyStr env.flaskServerUrl <;>
    cases h3 : falsyStr env.supabaseUrl <;>
    simp_all [handler, hm]

/-- Witness for C5 at a configuration with no executor URL. -/
theorem c5_witness :
    (handler "POST" envNoFlask (.ok (some [])) wThrew).status = 500 ∧
      (∃ e, (handler "POST" envNoFlask (.ok (some [])) wThrew).body = .fatal false e) ∧
      (handler "POST" envNoFlask (.ok (some [])) wThrew).rpcCalled = false :=
  c5_config_fatal "POST" envNoFlask (.ok (some [])) wThrew (by decide)
    (Or.inr (Or.inr (by decide)))

/-- Counterexample to claim C6 as stated: on a store holding one undone job
with one undone part and one done part, the SQL function does not return
the batch the spec describes (jobs all of whose sub-items are eligible,
carrying all their sub-items): it returns the job with only its undone
part embedded. -/
theorem c6_counterexample :
    ¬ (get_undone_scrape_jobs [jobRow6] [partRow6a, partRow6b]
        = eligibleBatchSpec [jobRow6] [partRow6a, partRow6b]) := by
  decide

/-- Claim C6 (amended): the fetch returns exactly the jobs whose own status
is eligible and that have at least one eligible sub-item, each carrying
exactly its eligible sub-items (not necessarily all of them), ordered by
creation time ascending. -/
theorem c6_amended_fetch (jobs : List JobRow) (parts : List PartRow) :
    (∀ sj, sj ∈ get_undone_scrape_jobs jobs parts ↔
      ∃ j, j ∈ jobs ∧ j.status = "undone" ∧ undonePartsOf parts j.id ≠ [] ∧
        sj = rowToJob parts j) ∧
    List.Sorted jobLE (get_undone_scrape_jobs jobs parts) := by
  constructor
  · intro sj
    unfold get_undone_scrape_jobs
    rw [List.mem_insertionSort, List.mem_filter, List.mem_map]
    constructor
    · rintro ⟨⟨j, hj, rfl⟩, hpred⟩
      rw [List.mem_filter] at hj
      refine ⟨j, hj.1, by simpa using hj.2, ?_, rfl⟩
      intro hnil
      simp [rowToJob, hnil] at hpred
    · rintro ⟨j, hj, hstat, hne, rfl⟩
      refine ⟨⟨j, List.mem_filter.mpr ⟨hj, by simpa using hstat⟩, rfl⟩, ?_⟩
      simpa [rowToJob] using hne
  · exact List.sorted_insertionSort jobLE _

/-- Witness for the amended C6: the mixed job of the counterexample store is
fetched, carrying its undone part only. -/
theorem c6_witness :
    rowToJob [partRow6a, partRow6b] jobRow6
      ∈ get_undone_scrape_jobs [jobRow6] [partRow6a, partRow6b] :=
  ((c6_amended_fetch [jobRow6] [partRow6a, partRow6b]).1 _).mpr
    ⟨jobRow6, by decide, by decide, by decide, rfl⟩

/-- Claim C7: an empty eligible batch short-circuits with a 200 response
saying no eligible jobs were found, and no executor call and no store
write is made. -/
theorem c7_empty_batch (method : String) (env : Env) (w : ScrapeJob → JobWorld)
    (jobsOpt : Option (List ScrapeJob)) (hm : method ≠ "OPTIONS")
    (h1 : falsyStr env.serviceRoleKey = false) (h2 : falsyStr env.flaskServerUrl = false)
    (h3 : falsyStr env.supabaseUrl = false) (hempty : jobsOpt.getD [] = []) :
    handler method env (.ok jobsOpt) w
      = ⟨200, .noJobs "No undone jobs found", true, [], [], []⟩ := by
  simp [handler, hm, h1, h2, h3, hempty]

/-- Witness for C7 at a concrete empty batch. -/
theorem c7_witness :
    handler "POST" envOK (.ok (some [])) wThrew
      = ⟨200, .noJobs "No undone jobs found", true, [], [], []⟩ :=
  c7_empty_batch "POST" envOK wThrew (some []) (by decide) rfl rfl rfl rfl

/-- Claim C8: a one-job batch whose executor answers HTTP 503 with body
overloaded yields an empty succeeded list and one failed entry whose error
detail is the exact string, with exactly one executor call and no store
update. -/
theorem c8_http_503 (method : String) (env : Env) (w : ScrapeJob → JobWorld)
    (job : ScrapeJob) (jr : JsonResult) (hm : method ≠ "OPTIONS")
    (h1 : falsyStr env.serviceRoleKey = false) (h2 : falsyStr env.flaskServerUrl = false)
    (h3 : falsyStr env.supabaseUrl = false)
    (hf : (w job).flask = .responded ⟨false, 503, "overloaded", jr⟩) :
    (handler method env (.ok (some [job])) w).status = 200 ∧
      (∃ m, (handler method env (.ok (some [job])) w).body
        = .summary true m [] [⟨job.job_id, "Flask API error (503): overloaded"⟩] 1) ∧
      (handler method env (.ok (some [job])) w).flaskCalls = [job.job_id] ∧
      (handler method env (.ok (some [job])) w).jobUpdateCalls = [] ∧
      (handler method env (.ok (some [job])) w).partsUpdateCalls = [] := by
  have hstr : ("Flask API error (" ++ toString (503 : Nat) ++ "): " ++ "overloaded")
      = "Flask API error (503): overloaded" := rfl
  have hstep : processJob (w job)
      = ⟨.failed "Flask API error (503): overloaded", true, false, false⟩ := by
    simp [processJob, hf, hstr]
  simp [handler, hm, h1, h2, h3, processBatch, hstep]

/-- Witness for C8 at a concrete one-job pass. -/
theorem c8_witness :
    (handler "POST" envOK (.ok (some [jobX])) w503).status = 200 ∧
      (∃ m, (handler "POST" envOK (.ok (some [jobX])) w503).body
        = .summary true m [] [⟨jobX.job_id, "Flask API error (503): overloaded"⟩] 1) ∧
      (handler "POST" envOK (.ok (some [jobX])) w503).flaskCalls = [jobX.job_id] ∧
      (handler "POST" envOK (.ok (some [jobX])) w503).jobUpdateCalls = [] ∧
      (handler "POST" envOK (.ok (some [jobX])) w503).partsUpdateCalls = [] :=
  c8_http_503 "POST" envOK w503 jobX (.parseError "no json") (by decide) rfl rfl rfl rfl

/-- Counterexample to claim C10 as stated: with configuration present and a
successful batch fetch returning an empty batch, the response has status
200 but its body carries no top-level success field at all, so it is not a
body with success equal to true. -/
theorem c10_counterexample :
    ¬ ((handler "POST" envOK (.ok (some [])) wThrew).status = 200 ∧
      bodySuccessField (handler "POST" envOK (.ok (some [])) wThrew).body = some true) := by
  decide

/-- Claim C10 (amended): with configuration present and a successful fetch
of a nonempty batch, the response is status 200 with top-level success
equal to true, even when every job fails; an empty fetched batch also
yields status 200 but with a message body that has no success field; and a
500 status arises only from missing configuration or a failed batch
fetch. -/
theorem c10_success_response (method : String) (env : Env)
    (rpcResult : Except String (Option (List ScrapeJob))) (w : ScrapeJob → JobWorld)
    (hm : method ≠ "OPTIONS") :
    (∀ jobs, rpcResult = .ok (some jobs) → jobs ≠ [] →
      falsyStr env.supabaseUrl = false → falsyStr env.serviceRoleKey = false →
      falsyStr env.flaskServerUrl = false →
        (handler method env rpcResult w).status = 200 ∧
          bodySuccessField (handler method env rpcResult w).body = some true) ∧
    ((handler method env rpcResult w).status = 500 →
      falsyStr env.supabaseUrl = true ∨ falsyStr env.serviceRoleKey = true ∨
        falsyStr env.flaskServerUrl = true ∨ ∃ e, rpcResult = .error e) := by
  constructor
  · rintro jobs rfl hne h3 h1 h2
    cases hj : jobs with
    | nil => exact absurd hj hne
    | cons a l => simp [handler, hm, h1, h2, h3, hj, bodySuccessField]
  · intro h500
    cases h1 : falsyStr env.serviceRoleKey <;> cases h2 : falsyStr env.flaskServerUrl <;>
      cases h3 : falsyStr env.supabaseUrl <;> simp_all
    cases rpcResult with
    | error e => exact ⟨e, rfl⟩
    | ok jobsOpt =>
      exfalso
      by_cases hempty : (jobsOpt.getD []).isEmpty <;>
        simp [handler, hm, h1, h2, h3, hempty] at h500

/-- Witness for the amended C10: a one-job pass whose only job throws still
answers 200 with success true. -/
theorem c10_witness :
    (handler "POST" envOK (.ok (some [jobX])) wThrew).status = 200 ∧
      bodySuccessField (handler "POST" envOK (.ok (some [jobX])) wThrew).body = some true :=
  (c10_success_response "POST" envOK (.ok (some [jobX])) wThrew (by decide)).1
    [jobX] rfl (by simp) rfl rfl rfl

end Scrape
